import Mathlib

/-!
Shallow embedding of `src/aws/create_nat_gateway.py` and
`src/aws/delete_nat_gateway.py`: NAT-gateway lifecycle management for a
Databricks workspace VPC.  Cloud resources are modelled as plain records,
the EC2 API calls as pure state transitions on those records, Python
exceptions as an `Except` error channel, and the side-effect order of the
composite workflows as an explicit event trace.
-/

/-- Python string containment: does `needle` occur at the head of `hay`? -/
def matchesAt : List Char → List Char → Bool
  | [], _ => true
  | _ :: _, [] => false
  | c :: cs, d :: ds => c = d && matchesAt cs ds

/-- Python `needle in hay` over the character lists. -/
def containsSub (needle : List Char) : List Char → Bool
  | [] => matchesAt needle []
  | d :: ds => matchesAt needle (d :: ds) || containsSub needle ds

/-- Python `needle in hay` for strings. -/
def strContains (hay needle : String) : Bool :=
  containsSub needle.data hay.data

/-- Python exceptions raised by the scripts: `ValueError`, botocore
`ClientError` (identified by the error text the code matches on), and the
unguarded `IndexError` from `[0]` indexing. -/
inductive AwsErr : Type
  | valueError (msg : String)
  | clientError (msg : String)
  | indexError
  deriving DecidableEq, Repr

/-- Python `str(e)` as the code uses it for substring matching on errors. -/
def AwsErr.text : AwsErr → String
  | .valueError msg => msg
  | .clientError msg => msg
  | .indexError => "list index out of range"

/-- An EC2 resource tag (`Key`/`Value` pair). -/
structure Tag where
  key : String
  value : String
  deriving DecidableEq, Repr

/-- A VPC record as returned by `describe_vpcs`. -/
structure Vpc where
  vpcId : String
  tags : List Tag
  deriving DecidableEq, Repr

/-- A route in a route table: optional destination CIDR and optional
NAT-gateway target, mirroring the `.get(...)` accesses in the code. -/
structure Route where
  destinationCidrBlock : Option String
  natGatewayId : Option String
  deriving DecidableEq, Repr

/-- A route table as returned by `describe_route_tables`. -/
structure RouteTable where
  routeTableId : String
  vpcId : String
  mainAssociation : Bool
  routes : List Route
  deriving DecidableEq, Repr

/-- A subnet record as returned by `describe_subnets`. -/
structure Subnet where
  subnetId : String
  vpcId : String
  tags : List Tag
  deriving DecidableEq, Repr

/-- One entry of a NAT gateway record in `NatGatewayAddresses`. -/
structure NatAddress where
  allocationId : String
  deriving DecidableEq, Repr

/-- A NAT gateway record as returned by `describe_nat_gateways`. -/
structure NatGateway where
  natGatewayId : String
  subnetId : String
  state : String
  addresses : List NatAddress
  deriving DecidableEq, Repr

/-- Is this route the default route (`DestinationCidrBlock == 0.0.0.0/0`)? -/
def Route.isDefault (r : Route) : Bool :=
  r.destinationCidrBlock = some "0.0.0.0/0"

/-- Does this tag make a VPC match workspace `wid`
(`tag.Key == Name and workerenv-wid in tag.Value`)? -/
def Tag.matchesWorkspace (wid : String) (t : Tag) : Bool :=
  t.key = "Name" && strContains t.value ("workerenv-" ++ wid)

/-- Does this tag mark the NAT-gateway subnet
(`tag.Key == Name and nat-gateway-subnet in tag.Value`)? -/
def Tag.marksNatSubnet (t : Tag) : Bool :=
  t.key = "Name" && strContains t.value "nat-gateway-subnet"

namespace CreateNatGw

/-- Method `ToggleNATGatewayForDatabricksWorkspaceTrait._find_vpc_id_by_name`
(create-side file): collects one entry per matching `Name` tag, requires
exactly one, returns its `VpcId`. -/
def find_vpc_id_by_name (vpcs : List Vpc) (workspace_id : String) :
    Except AwsErr String :=
  let matched_vpcs :=
    vpcs.flatMap fun vpc =>
      (vpc.tags.filter (Tag.matchesWorkspace workspace_id)).map fun _ => vpc
  match matched_vpcs with
  | [v] => .ok v.vpcId
  | _ => .error (.valueError
      (toString matched_vpcs.length ++
        " VPCs found with name containing workspace ID " ++ workspace_id))

/-- Method `_find_default_route_table_by_vpcid` (create-side file): filters by
vpc-id and `association.main = true`, then indexes `[0]` unguarded. -/
def find_default_route_table_by_vpcid (tables : List RouteTable)
    (vpc_id : String) : Except AwsErr String :=
  let filtered := tables.filter fun t =>
    t.vpcId = vpc_id && t.mainAssociation
  match filtered with
  | [] => .error .indexError
  | t :: _ => .ok t.routeTableId

/-- Method `_find_subnet_id_for_natgw_by_vpc_id` (create-side file): filters
subnets by vpc, keeps one entry per tag whose `Name` value contains
`nat-gateway-subnet`, requires exactly one. -/
def find_subnet_id_for_natgw_by_vpc_id (subnets : List Subnet)
    (vpc_id : String) : Except AwsErr String :=
  let inVpc := subnets.filter fun s => s.vpcId = vpc_id
  let matched_subnets :=
    inVpc.flatMap fun subnet =>
      (subnet.tags.filter Tag.marksNatSubnet).map fun _ => subnet
  match matched_subnets with
  | [s] => .ok s.subnetId
  | _ => .error (.valueError
      (toString matched_subnets.length ++
        " subnets found with name nat-gateway-subnet in VPC " ++ vpc_id))

end CreateNatGw

namespace DeleteNatGw

/-- Method `_find_vpc_id_by_name` (delete-side file): same matching, collects the
`VpcId` per matching tag, distinguishes the 0-match and many-match error
messages. -/
def find_vpc_id_by_name (vpcs : List Vpc) (workspace_id : String) :
    Except AwsErr String :=
  let vpc_list :=
    vpcs.flatMap fun vpc =>
      (vpc.tags.filter (Tag.matchesWorkspace workspace_id)).map
        fun _ => vpc.vpcId
  match vpc_list with
  | [v] => .ok v
  | [] => .error (.valueError
      ("No VPC found with name containing workspace ID " ++ workspace_id))
  | _ => .error (.valueError
      (toString vpc_list.length ++
        " VPCs found with name containing workspace ID " ++ workspace_id))

/-- Method `_find_default_route_table_by_vpcid` (delete-side file): identical to
the create-side copy. -/
def find_default_route_table_by_vpcid (tables : List RouteTable)
    (vpc_id : String) : Except AwsErr String :=
  let filtered := tables.filter fun t =>
    t.vpcId = vpc_id && t.mainAssociation
  match filtered with
  | [] => .error .indexError
  | t :: _ => .ok t.routeTableId

/-- Method `_find_subnet_id_for_natgw_by_vpc_id` (delete-side file): identical to
the create-side copy. -/
def find_subnet_id_for_natgw_by_vpc_id (subnets : List Subnet)
    (vpc_id : String) : Except AwsErr String :=
  let inVpc := subnets.filter fun s => s.vpcId = vpc_id
  let matched_subnets :=
    inVpc.flatMap fun subnet =>
      (subnet.tags.filter Tag.marksNatSubnet).map fun _ => subnet
  match matched_subnets with
  | [s] => .ok s.subnetId
  | _ => .error (.valueError
      (toString matched_subnets.length ++
        " subnets found with name nat-gateway-subnet in VPC " ++ vpc_id))

/-- Method `DeleteNATGateway._find_natgw_id_by_subnet_id`: describe NAT gateways
filtered by subnet-id and `state = available`; require exactly one. -/
def find_natgw_id_by_subnet_id (gws : List NatGateway)
    (subnet_id : String) : Except AwsErr String :=
  let filtered := gws.filter fun g =>
    g.subnetId = subnet_id && g.state = "available"
  match filtered with
  | [g] => .ok g.natGatewayId
  | _ => .error (.valueError
      (toString filtered.length ++ " NatGateways found in subnet " ++
        subnet_id))

/-- Method `DeleteNATGateway._find_eip_association_id_by_natgw_id`: describe NAT
gateways filtered by nat-gateway-id, require exactly one, then read
`NatGatewayAddresses[0].AllocationId` unguarded. -/
def find_eip_association_id_by_natgw_id (gws : List NatGateway)
    (natgw_id : String) (subnet_id : String) : Except AwsErr String :=
  let filtered := gws.filter fun g => g.natGatewayId = natgw_id
  match filtered with
  | [g] =>
    match g.addresses with
    | [] => .error .indexError
    | a :: _ => .ok a.allocationId
  | _ => .error (.valueError
      (toString filtered.length ++ " NatGateways found in subnet " ++
        subnet_id))

end DeleteNatGw

/-- EC2 API calls issued by the scripts, in the order they happen.
`sleep30` records one executed `time.sleep(30)`, `waiterWait` the blocking
`nat_gateway_deleted` waiter. -/
inductive Event : Type
  | describeVpcs
  | describeRouteTables
  | describeSubnets
  | describeNatGateways
  | sleep30
  | allocateAddress (allocId : String)
  | createNatGatewayCall (allocId subnetId gwId : String)
  | deleteRouteCall (rtb : String)
  | createRouteCall (rtb gwId : String)
  | deleteNatGatewayCall (gwId : String)
  | waiterWait (gwId : String)
  | releaseAddress (allocId : String)
  deriving DecidableEq, Repr

/-- Does the call mutate cloud state?  Describe calls, the waiter and the
sleep are read-only. -/
def Event.isMutating : Event → Bool
  | .allocateAddress _ => true
  | .createNatGatewayCall _ _ _ => true
  | .deleteRouteCall _ => true
  | .createRouteCall _ _ => true
  | .deleteNatGatewayCall _ => true
  | .releaseAddress _ => true
  | _ => false

/-- Is the call an operation on the route table (the diagnostic listing,
the route existence check, or the route deletion)? -/
def Event.isRouteTableOp : Event → Bool
  | .describeRouteTables => true
  | .deleteRouteCall _ => true
  | _ => false

/-- The cloud state the composite workflows read and mutate: the allocated
elastic IPs, the NAT gateways, and the routes of the main route table the
workflow addresses.  `nextId` numbers freshly created resources. -/
structure World where
  eips : List String
  natGateways : List NatGateway
  routes : List Route
  nextId : Nat
  deriving DecidableEq, Repr

namespace CreateNatGw

/-- EC2 semantics of `delete_route(RouteTableId, DestinationCidrBlock =
0.0.0.0/0)` on the routes of the addressed table: removes the default
route, or fails with `InvalidRoute.NotFound` when it is absent. -/
def delete_route_sem (routes : List Route) : Except AwsErr (List Route) :=
  if routes.any Route.isDefault then
    .ok (routes.filter fun r => !r.isDefault)
  else
    .error (.clientError
      "An error occurred (InvalidRoute.NotFound) when calling the DeleteRoute operation: no route with destination-cidr-block 0.0.0.0/0")

/-- EC2 semantics of `create_route(DestinationCidrBlock = 0.0.0.0/0,
NatGatewayId, RouteTableId)`: appends the default route targeting the
gateway (HTTP 200), or fails when a default route already exists. -/
def create_route_sem (gwId : String) (routes : List Route) :
    Except AwsErr (List Route) :=
  if routes.any Route.isDefault then
    .error (.clientError
      "An error occurred (RouteAlreadyExists) when calling the CreateRoute operation")
  else
    .ok (routes ++ [⟨some "0.0.0.0/0", some gwId⟩])

/-- The delete attempt of `CreateNATGateway.update_route_table`: the
`except ClientError` arm treats `InvalidRoute.NotFound` as benign (the
table is left as it was) and re-raises anything else. -/
def try_delete_route (routes : List Route) : Except AwsErr (List Route) :=
  match delete_route_sem routes with
  | .ok rs => .ok rs
  | .error e =>
    if strContains e.text "InvalidRoute.NotFound" then .ok routes
    else .error e

/-- Method `CreateNATGateway.update_route_table`: delete the existing 0.0.0.0/0
route if present (absence is benign), then create the new 0.0.0.0/0 route
targeting `nat_gateway_id`. -/
def update_route_table (nat_gateway_id : String) (routes : List Route) :
    Except AwsErr (List Route) :=
  match try_delete_route routes with
  | .error e => .error e
  | .ok rs => create_route_sem nat_gateway_id rs

/-- Responses the provider gives the Creator's mutating calls: the HTTP
status code carried by each response (the code raises `ValueError` on
anything other than 200), and, for the `delete_route` call, an optional
`ClientError` text raised instead of a normal answer (a text not
containing `InvalidRoute.NotFound` is re-raised by
`update_route_table`). -/
structure Provider where
  allocateStatus : Nat
  createNatGwStatus : Nat
  deleteRouteErr : Option String
  createRouteStatus : Nat
  deriving DecidableEq, Repr

/-- EC2 `delete_route` as the provider can answer the Creator: either
the pure route-table semantics, or an injected transport-level
`ClientError` (an authorization failure, a bad route-table id), which
the caller inspects for the `InvalidRoute.NotFound` text. -/
def delete_route_prov (p : Provider) (routes : List Route) :
    Except AwsErr (List Route) :=
  match p.deleteRouteErr with
  | some msg => .error (.clientError msg)
  | none => delete_route_sem routes

/-- The delete attempt of `update_route_table` against the provider:
`InvalidRoute.NotFound` is benign (the table is left as it was), any
other error is re-raised. -/
def try_delete_route_prov (p : Provider) (routes : List Route) :
    Except AwsErr (List Route) :=
  match delete_route_prov p routes with
  | .ok rs => .ok rs
  | .error e =>
    if strContains e.text "InvalidRoute.NotFound" then .ok routes
    else .error e

/-- Outcome of the polling loop of `check_nat_gateway_status`. -/
inductive PollResult : Type
  | available
  | unexpected (state : String)
  | fuelOut
  deriving DecidableEq, Repr

/-- Method `CreateNATGateway.check_nat_gateway_status`: poll the gateway state
starting at poll index `i`; state `available` returns normally, `pending`
sleeps 30 seconds and polls again, anything else raises `ValueError`
before the `time.sleep(30)` at the bottom of the loop is reached.
`states j` is the state the provider reports on poll `j`; `fuel` bounds
the number of iterations modelled (the Python loop is unbounded).  The
trace records one `describeNatGateways` per poll and one `sleep30` per
executed sleep. -/
def check_nat_gateway_status (states : Nat → String) :
    Nat → Nat → List Event × PollResult
  | _, 0 => ([], .fuelOut)
  | i, fuel + 1 =>
    let s := states i
    if s = "available" then ([.describeNatGateways], .available)
    else if s = "pending" then
      let rest := check_nat_gateway_status states (i + 1) fuel
      (.describeNatGateways :: .sleep30 :: rest.1, rest.2)
    else ([.describeNatGateways], .unexpected s)

/-- The fields `CreateNATGateway.__init__` stores: the resolved VPC, main
route table and NAT subnet. -/
structure Creator where
  vpc_id : String
  route_table : String
  subnet_id_for_natgw : String
  deriving DecidableEq, Repr

/-- Constructor `CreateNATGateway.__init__` (via the trait): the three lookups in
order, each preceded by its describe call; construction stops at the
first failing lookup and issues no mutating call. -/
def Creator.construct (vpcs : List Vpc) (tables : List RouteTable)
    (subnets : List Subnet) (workspace_id : String) :
    Except AwsErr Creator × List Event :=
  match find_vpc_id_by_name vpcs workspace_id with
  | .error e => (.error e, [.describeVpcs])
  | .ok vpcId =>
  match find_default_route_table_by_vpcid tables vpcId with
  | .error e => (.error e, [.describeVpcs, .describeRouteTables])
  | .ok rtb =>
  match find_subnet_id_for_natgw_by_vpc_id subnets vpcId with
  | .error e => (.error e,
      [.describeVpcs, .describeRouteTables, .describeSubnets])
  | .ok sub => (.ok ⟨vpcId, rtb, sub⟩,
      [.describeVpcs, .describeRouteTables, .describeSubnets])

/-- Method `CreateNATGateway.create_eip`: call `allocate_address`, check
the response's `HTTPStatusCode` and raise `ValueError` when it is not
200; on success return the fresh allocation id.  A failed request
allocates nothing, so the world is unchanged on the raise branch. -/
def create_eip (p : Provider) (w : World) :
    Except AwsErr String × World × List Event :=
  let allocId := "eipalloc-" ++ toString w.nextId
  if p.allocateStatus = 200 then
    (.ok allocId,
     { w with eips := w.eips ++ [allocId], nextId := w.nextId + 1 },
     [.allocateAddress allocId])
  else
    (.error (.valueError "Failed to create Elastic IP"), w,
     [.allocateAddress allocId])

/-- Method `CreateNATGateway.create_natgw`: call `create_nat_gateway` on
the stored subnet with the allocated elastic IP, check the response's
`HTTPStatusCode` and raise `ValueError` when it is not 200; on success
the new gateway starts out `pending`.  A failed request creates no
gateway, so the world is unchanged on the raise branch. -/
def create_natgw (p : Provider) (subnet_id : String)
    (eip_association_id : String) (w : World) :
    Except AwsErr String × World × List Event :=
  let gwId := "nat-" ++ toString w.nextId
  let gw : NatGateway := ⟨gwId, subnet_id, "pending", [⟨eip_association_id⟩]⟩
  if p.createNatGwStatus = 200 then
    (.ok gwId,
     { w with natGateways := w.natGateways ++ [gw], nextId := w.nextId + 1 },
     [.createNatGatewayCall eip_association_id subnet_id gwId])
  else
    (.error (.valueError "Failed to create NAT Gateway"), w,
     [.createNatGatewayCall eip_association_id subnet_id gwId])

/-- Method `CreateNATGateway.update_route_table` as executed inside
`run`, with the provider's failure modes threaded through: the delete
attempt (benign when the route is absent, re-raised on any other
`ClientError`), then `create_route` whose response status is checked,
raising `ValueError` when it is not 200.  The returned world reflects
exactly the calls that succeeded; on a success-answering provider the
routes computed agree with `update_route_table`. -/
def update_route_table_step (p : Provider) (rtb gw : String)
    (w : World) : Except AwsErr Unit × World × List Event :=
  match try_delete_route_prov p w.routes with
  | .error e => (.error e, w, [.deleteRouteCall rtb])
  | .ok rs =>
    match create_route_sem gw rs with
    | .error e => (.error e, { w with routes := rs },
        [.deleteRouteCall rtb, .createRouteCall rtb gw])
    | .ok rs2 =>
      if p.createRouteStatus = 200 then
        (.ok (), { w with routes := rs2 },
         [.deleteRouteCall rtb, .createRouteCall rtb gw])
      else
        (.error (.valueError "Failed to add route to route table"),
         { w with routes := rs },
         [.deleteRouteCall rtb, .createRouteCall rtb gw])

/-- Outcome of a composite workflow: normal return, a raised exception, or
fuel exhaustion of the unbounded polling loop.  Every outcome carries the
cloud state and the trace of calls issued up to that point. -/
inductive RunResult (α : Type) : Type
  | ok (a : α) (w : World) (tr : List Event)
  | err (e : AwsErr) (w : World) (tr : List Event)
  | diverged (w : World) (tr : List Event)
  deriving Repr

/-- Method `CreateNATGateway.run`: create the elastic IP, create the NAT
gateway, poll until it is available, rewrite the default route; returns
the new gateway id.  Each step's raise aborts the remaining steps, with
the cloud state as the completed calls left it.  `p` carries the
provider's answers to the mutating calls and `states` the sequence of
gateway states it reports to the polling loop. -/
def Creator.run (c : Creator) (p : Provider) (states : Nat → String)
    (fuel : Nat) (w : World) : RunResult String :=
  match create_eip p w with
  | (.error e, w1, t1) => .err e w1 t1
  | (.ok eip_association_id, w1, t1) =>
  match create_natgw p c.subnet_id_for_natgw eip_association_id w1 with
  | (.error e, w2, t2) => .err e w2 (t1 ++ t2)
  | (.ok natgw_id, w2, t2) =>
  let (t3, pr) := check_nat_gateway_status states 0 fuel
  match pr with
  | .fuelOut => .diverged w2 (t1 ++ t2 ++ t3)
  | .unexpected s => .err
      (.valueError ("NAT Gateway " ++ natgw_id ++
        " is in an unexpected state: " ++ s))
      w2 (t1 ++ t2 ++ t3)
  | .available =>
    match update_route_table_step p c.route_table natgw_id w2 with
    | (.error e, w3, t4) => .err e w3 (t1 ++ t2 ++ t3 ++ t4)
    | (.ok _, w3, t4) => .ok natgw_id w3 (t1 ++ t2 ++ t3 ++ t4)

end CreateNatGw

namespace DeleteNatGw

/-- The fields `DeleteNATGateway.__init__` stores: the trait lookups plus
the located NAT gateway and its elastic-IP allocation. -/
structure Deleter where
  vpc_id : String
  route_table : String
  subnet_id_for_natgw : String
  natgw_id : String
  eip_association_id : String
  deriving DecidableEq, Repr

/-- Constructor `DeleteNATGateway.__init__`: the trait lookups followed by the NAT
gateway and elastic-IP lookups, each with its describe call; construction
stops at the first failing lookup and issues no mutating call. -/
def Deleter.construct (vpcs : List Vpc) (tables : List RouteTable)
    (subnets : List Subnet) (gws : List NatGateway)
    (workspace_id : String) : Except AwsErr Deleter × List Event :=
  match find_vpc_id_by_name vpcs workspace_id with
  | .error e => (.error e, [.describeVpcs])
  | .ok vpcId =>
  match find_default_route_table_by_vpcid tables vpcId with
  | .error e => (.error e, [.describeVpcs, .describeRouteTables])
  | .ok rtb =>
  match find_subnet_id_for_natgw_by_vpc_id subnets vpcId with
  | .error e => (.error e,
      [.describeVpcs, .describeRouteTables, .describeSubnets])
  | .ok sub =>
  match find_natgw_id_by_subnet_id gws sub with
  | .error e => (.error e,
      [.describeVpcs, .describeRouteTables, .describeSubnets,
       .describeNatGateways])
  | .ok gw =>
  match find_eip_association_id_by_natgw_id gws gw sub with
  | .error e => (.error e,
      [.describeVpcs, .describeRouteTables, .describeSubnets,
       .describeNatGateways, .describeNatGateways])
  | .ok eip => (.ok ⟨vpcId, rtb, sub, gw, eip⟩,
      [.describeVpcs, .describeRouteTables, .describeSubnets,
       .describeNatGateways, .describeNatGateways])

/-- What `delete_route_to_natgw` can observe from the provider: the
describe response (fallible; a list of route-table route lists, the code
indexes `[0]`) and the outcome of the delete call. -/
structure RouteOracle where
  describeRT : Except AwsErr (List (List Route))
  deleteRoute : Except AwsErr Unit

/-- Log records `delete_route_to_natgw` emits. -/
inductive DelRouteLog : Type
  | infoDeleted
  | warnNoRoute
  | errorLogged (e : AwsErr)
  deriving DecidableEq, Repr

/-- Method `DeleteNATGateway.delete_route_to_natgw` against an arbitrary
provider: describe the route table, check for a 0.0.0.0/0 route, delete
it when present, warn when absent.  The whole body sits in a
`try/except Exception` block, so every error (the describe failing, the
`[0]` on an empty response, the delete failing) is logged and swallowed;
the return type has no error channel.  The boolean records whether the
delete call was issued. -/
def delete_route_to_natgw (o : RouteOracle) : DelRouteLog × Bool :=
  match o.describeRT with
  | .error e => (.errorLogged e, false)
  | .ok [] => (.errorLogged .indexError, false)
  | .ok (routes :: _) =>
    if routes.any Route.isDefault then
      match o.deleteRoute with
      | .ok _ => (.infoDeleted, true)
      | .error e => (.errorLogged e, true)
    else (.warnNoRoute, false)

/-- Method `DeleteNATGateway.check_routes_in_route_table`: diagnostic listing of
the routes; one describe call, any error swallowed, no state change. -/
def check_routes_in_route_table (w : World) : World × List Event :=
  (w, [.describeRouteTables])

/-- Variant of `delete_route_to_natgw` acting on the modelled cloud state: the
describe call, then the delete call exactly when a 0.0.0.0/0 route is
present in the addressed table. -/
def delete_route_to_natgw_w (rtb : String) (w : World) :
    World × List Event :=
  if w.routes.any Route.isDefault then
    ({ w with routes := w.routes.filter fun r => !r.isDefault },
     [.describeRouteTables, .deleteRouteCall rtb])
  else
    (w, [.describeRouteTables])

/-- Method `DeleteNATGateway.delete_natgw`: issue the delete call, then block on
the `nat_gateway_deleted` waiter; the model provider answers HTTP 200 and
the wait completes with the gateway gone. -/
def delete_natgw (natgw_id : String) (w : World) : World × List Event :=
  ({ w with natGateways :=
      w.natGateways.filter fun g => !(g.natGatewayId = natgw_id) },
   [.deleteNatGatewayCall natgw_id, .waiterWait natgw_id])

/-- Method `DeleteNATGateway.release_eip`: release the stored allocation; the
model provider answers HTTP 200. -/
def release_eip (eip_association_id : String) (w : World) :
    World × List Event :=
  ({ w with eips := w.eips.filter fun a => !(a = eip_association_id) },
   [.releaseAddress eip_association_id])

/-- Method `DeleteNATGateway.run`: the diagnostic listing, the route deletion,
the gateway deletion with its wait, then the elastic-IP release, in that
order. -/
def Deleter.run (d : Deleter) (w : World) : World × List Event :=
  let (w1, t1) := check_routes_in_route_table w
  let (w2, t2) := delete_route_to_natgw_w d.route_table w1
  let (w3, t3) := delete_natgw d.natgw_id w2
  let (w4, t4) := release_eip d.eip_association_id w3
  (w4, t1 ++ t2 ++ t3 ++ t4)

end DeleteNatGw

/-- The call trace of a polling run that sees `k` `pending` states before
its verdict: `k` polls each followed by one 30-second sleep, then one
final poll. -/
def pollTrace : Nat → List Event
  | 0 => [.describeNatGateways]
  | k + 1 => .describeNatGateways :: .sleep30 :: pollTrace k

lemma pollTrace_count_describe (k : Nat) :
    (pollTrace k).count Event.describeNatGateways = k + 1 := by
  induction k with
  | zero => rfl
  | succ k ih => simp [pollTrace, ih]

lemma pollTrace_count_sleep (k : Nat) :
    (pollTrace k).count Event.sleep30 = k := by
  induction k with
  | zero => rfl
  | succ k ih => simp [pollTrace, ih]

lemma pollTrace_mem {k : Nat} {e : Event} (h : e ∈ pollTrace k) :
    e = .describeNatGateways ∨ e = .sleep30 := by
  induction k with
  | zero => simp [pollTrace] at h; exact Or.inl h
  | succ k ih =>
    simp only [pollTrace, List.mem_cons] at h
    rcases h with h | h | h
    · exact Or.inl h
    · exact Or.inr h
    · exact ih h

lemma filter_not_default_any (routes : List Route) :
    ((routes.filter fun r => !r.isDefault).any Route.isDefault) = false := by
  simp [List.any_eq_false]

lemma try_delete_route_eq (routes : List Route) :
    CreateNatGw.try_delete_route routes =
      .ok (if routes.any Route.isDefault
        then routes.filter fun r => !r.isDefault
        else routes) := by
  unfold CreateNatGw.try_delete_route CreateNatGw.delete_route_sem
  by_cases h : routes.any Route.isDefault = true
  · simp [h]
  · simp only [Bool.not_eq_true] at h
    simp only [h, Bool.false_eq_true, if_false, if_neg]
    simp [AwsErr.text, show strContains
      "An error occurred (InvalidRoute.NotFound) when calling the DeleteRoute operation: no route with destination-cidr-block 0.0.0.0/0"
      "InvalidRoute.NotFound" = true from by decide]

lemma update_route_table_eq (gw : String) (routes : List Route) :
    CreateNatGw.update_route_table gw routes =
      .ok ((routes.filter fun r => !r.isDefault) ++
        [⟨some "0.0.0.0/0", some gw⟩]) := by
  unfold CreateNatGw.update_route_table
  rw [try_delete_route_eq]
  by_cases h : routes.any Route.isDefault = true
  · simp [h, CreateNatGw.create_route_sem, filter_not_default_any]
  · simp only [Bool.not_eq_true] at h
    simp only [h, Bool.false_eq_true, if_false]
    have hall : routes.filter (fun r => !r.isDefault) = routes := by
      rw [List.filter_eq_self]
      intro a ha
      simp only [Bool.not_eq_true']
      exact Bool.eq_false_iff.mpr ((List.any_eq_false.mp h) a ha)
    simp [CreateNatGw.create_route_sem, h, hall]

lemma create_eip_ok (p : CreateNatGw.Provider) (w : World)
    (h : p.allocateStatus = 200) :
    CreateNatGw.create_eip p w =
      (.ok ("eipalloc-" ++ toString w.nextId),
       { w with
         eips := w.eips ++ ["eipalloc-" ++ toString w.nextId],
         nextId := w.nextId + 1 },
       [.allocateAddress ("eipalloc-" ++ toString w.nextId)]) := by
  unfold CreateNatGw.create_eip
  rw [if_pos h]

lemma create_eip_fail (p : CreateNatGw.Provider) (w : World)
    (h : p.allocateStatus ≠ 200) :
    CreateNatGw.create_eip p w =
      (.error (.valueError "Failed to create Elastic IP"), w,
       [.allocateAddress ("eipalloc-" ++ toString w.nextId)]) := by
  unfold CreateNatGw.create_eip
  rw [if_neg h]

lemma create_natgw_ok (p : CreateNatGw.Provider) (sub eip : String)
    (w : World) (h : p.createNatGwStatus = 200) :
    CreateNatGw.create_natgw p sub eip w =
      (.ok ("nat-" ++ toString w.nextId),
       { w with
         natGateways := w.natGateways ++
           [⟨"nat-" ++ toString w.nextId, sub, "pending", [⟨eip⟩]⟩],
         nextId := w.nextId + 1 },
       [.createNatGatewayCall eip sub ("nat-" ++ toString w.nextId)]) := by
  unfold CreateNatGw.create_natgw
  rw [if_pos h]

lemma create_natgw_fail (p : CreateNatGw.Provider) (sub eip : String)
    (w : World) (h : p.createNatGwStatus ≠ 200) :
    CreateNatGw.create_natgw p sub eip w =
      (.error (.valueError "Failed to create NAT Gateway"), w,
       [.createNatGatewayCall eip sub ("nat-" ++ toString w.nextId)]) := by
  unfold CreateNatGw.create_natgw
  rw [if_neg h]

lemma try_delete_route_prov_none (p : CreateNatGw.Provider)
    (routes : List Route) (h : p.deleteRouteErr = none) :
    CreateNatGw.try_delete_route_prov p routes =
      CreateNatGw.try_delete_route routes := by
  unfold CreateNatGw.try_delete_route_prov CreateNatGw.delete_route_prov
    CreateNatGw.try_delete_route
  rw [h]

lemma update_route_table_step_benign (p : CreateNatGw.Provider)
    (rtb gw : String) (w : World) (h1 : p.deleteRouteErr = none)
    (h2 : p.createRouteStatus = 200) :
    CreateNatGw.update_route_table_step p rtb gw w =
      (.ok (), { w with routes :=
          (w.routes.filter fun r => !r.isDefault) ++
            [⟨some "0.0.0.0/0", some gw⟩] },
       [.deleteRouteCall rtb, .createRouteCall rtb gw]) := by
  have hupd := update_route_table_eq gw w.routes
  unfold CreateNatGw.update_route_table at hupd
  unfold CreateNatGw.update_route_table_step
  rw [try_delete_route_prov_none p w.routes h1]
  cases htd : CreateNatGw.try_delete_route w.routes with
  | error e => rw [htd] at hupd; simp at hupd
  | ok rs =>
    rw [htd] at hupd
    simp only at hupd
    simp only [hupd, if_pos h2]

lemma update_route_table_step_delete_fail (p : CreateNatGw.Provider)
    (rtb gw msg : String) (w : World)
    (h1 : p.deleteRouteErr = some msg)
    (h2 : strContains msg "InvalidRoute.NotFound" = false) :
    CreateNatGw.update_route_table_step p rtb gw w =
      (.error (.clientError msg), w, [.deleteRouteCall rtb]) := by
  unfold CreateNatGw.update_route_table_step
    CreateNatGw.try_delete_route_prov CreateNatGw.delete_route_prov
  rw [h1]
  simp only [AwsErr.text, h2, Bool.false_eq_true, if_false]

lemma update_route_table_step_create_fail (p : CreateNatGw.Provider)
    (rtb gw : String) (w : World) (h1 : p.deleteRouteErr = none)
    (h2 : p.createRouteStatus ≠ 200) :
    CreateNatGw.update_route_table_step p rtb gw w =
      (.error (.valueError "Failed to add route to route table"),
       { w with routes :=
          if w.routes.any Route.isDefault
          then w.routes.filter fun r => !r.isDefault
          else w.routes },
       [.deleteRouteCall rtb, .createRouteCall rtb gw]) := by
  unfold CreateNatGw.update_route_table_step
  rw [try_delete_route_prov_none p w.routes h1, try_delete_route_eq]
  by_cases hdef : w.routes.any Route.isDefault = true
  · simp only [hdef, if_true, CreateNatGw.create_route_sem,
      filter_not_default_any, Bool.false_eq_true, if_false, if_neg h2]
  · simp only [Bool.not_eq_true] at hdef
    have hall : (w.routes.filter fun r => !r.isDefault).any
        Route.isDefault = false := filter_not_default_any w.routes
    simp only [hdef, Bool.false_eq_true, if_false,
      CreateNatGw.create_route_sem, if_neg h2]

lemma check_run (states : Nat → String) (k : Nat) :
    ∀ (i fuel : Nat), k < fuel →
      (∀ j, j < k → states (i + j) = "pending") →
      states (i + k) ≠ "pending" →
      CreateNatGw.check_nat_gateway_status states i fuel =
        (pollTrace k,
         if states (i + k) = "available" then .available
         else .unexpected (states (i + k))) := by
  induction k with
  | zero =>
    intro i fuel hf _ hk
    match fuel, hf with
    | fuel + 1, _ =>
      unfold CreateNatGw.check_nat_gateway_status
      simp only [Nat.add_zero] at hk ⊢
      by_cases ha : states i = "available"
      · simp [ha, pollTrace]
      · simp [ha, hk, pollTrace]
  | succ k ih =>
    intro i fuel hf hp hk
    match fuel, hf with
    | fuel + 1, hf =>
      have h0 : states i = "pending" := by
        simpa using hp 0 (Nat.succ_pos k)
      unfold CreateNatGw.check_nat_gateway_status
      have hrw := ih (i + 1) fuel (Nat.lt_of_succ_lt_succ hf)
        (fun j hj => by
          have := hp (j + 1) (Nat.succ_lt_succ hj)
          simpa [Nat.add_assoc, Nat.add_comm 1 j] using this)
        (by
          have : i + 1 + k = i + (k + 1) := by omega
          rw [this]; exact hk)
      simp only [h0, hrw]
      have hik : i + 1 + k = i + (k + 1) := by omega
      simp [pollTrace, hik]

lemma check_available_reaches (states : Nat → String) :
    ∀ (fuel i : Nat),
      (CreateNatGw.check_nat_gateway_status states i fuel).2 =
        .available →
      ∃ m, states m = "available" := by
  intro fuel
  induction fuel with
  | zero =>
    intro i h
    simp [CreateNatGw.check_nat_gateway_status] at h
  | succ fuel ih =>
    intro i h
    unfold CreateNatGw.check_nat_gateway_status at h
    by_cases ha : states i = "available"
    · exact ⟨i, ha⟩
    · by_cases hp : states i = "pending"
      · simp only [ha, hp, if_true, if_false, if_neg, if_pos] at h
        exact ih (i + 1) (by simpa using h)
      · simp [ha, hp] at h

lemma flatMap_tag_matched {α β : Type} (f : α → β) (tags : α → List Tag)
    (p : Tag → Bool) (xs : List α)
    (huniq : ∀ x ∈ xs, ((tags x).filter p).length ≤ 1) :
    (xs.flatMap fun x => (((tags x).filter p).map fun _ => f x)) =
      (xs.filter fun x => (tags x).any p).map f := by
  induction xs with
  | nil => rfl
  | cons x xs ih =>
    have hx := huniq x (List.mem_cons_self x xs)
    have hrest := fun y hy => huniq y (List.mem_cons_of_mem x hy)
    simp only [List.flatMap_cons, List.filter_cons]
    cases hf : (tags x).filter p with
    | nil =>
      have hany : (tags x).any p = false := by
        rw [List.any_eq_false]
        intro t ht hpt
        have hmem : t ∈ (tags x).filter p := List.mem_filter.mpr ⟨ht, hpt⟩
        simp [hf] at hmem
      rw [hany]
      simp only [List.map_nil, List.nil_append, Bool.false_eq_true,
        if_false]
      exact ih hrest
    | cons t ts =>
      have hts : ts = [] := by
        rw [hf] at hx
        simp only [List.length_cons] at hx
        exact List.length_eq_zero.mp (by omega)
      have hmem : t ∈ (tags x).filter p := by
        rw [hf]; exact List.mem_cons_self t ts
      have hpt := (List.mem_filter.mp hmem).2
      have hany : (tags x).any p = true :=
        List.any_eq_true.mpr ⟨t, (List.mem_filter.mp hmem).1, hpt⟩
      subst hts
      rw [hany, if_pos rfl]
      simp only [List.map_cons, List.map_nil, List.cons_append,
        List.nil_append]
      rw [ih hrest]

/-- C1: `update_route_table` is idempotent with respect to route
deletion.  When no 0.0.0.0/0 route is present, the delete attempt is a
no-op that raises no error; when one is present it is deleted; and in
every case the subsequent creation succeeds and leaves the table with
exactly one 0.0.0.0/0 route, targeting the given NAT gateway id. -/
theorem update_route_table_idempotent_delete (gw : String)
    (routes : List Route) :
    (routes.any Route.isDefault = false →
      CreateNatGw.try_delete_route routes = .ok routes) ∧
    (routes.any Route.isDefault = true →
      CreateNatGw.try_delete_route routes =
        .ok (routes.filter fun r => !r.isDefault)) ∧
    ∃ rs, CreateNatGw.update_route_table gw routes = .ok rs ∧
      rs.filter Route.isDefault = [⟨some "0.0.0.0/0", some gw⟩] := by
  refine ⟨fun h => ?_, fun h => ?_, ?_⟩
  · rw [try_delete_route_eq, h]; rfl
  · rw [try_delete_route_eq, h]; rfl
  · refine ⟨_, update_route_table_eq gw routes, ?_⟩
    rw [List.filter_append]
    have h1 : (routes.filter fun r => !r.isDefault).filter Route.isDefault
        = [] := by
      rw [List.filter_eq_nil_iff]
      intro a ha
      have := (List.mem_filter.mp ha).2
      simp only [Bool.not_eq_true'] at this
      simp [this]
    rw [h1]
    simp [Route.isDefault]

/-- C1 witness: the theorem at the one-route table `10.0.0.0/16 → none`
and the gateway id `nat-1`. -/
theorem update_route_table_idempotent_delete_witness :
    CreateNatGw.try_delete_route [⟨some "10.0.0.0/16", none⟩] =
      .ok [⟨some "10.0.0.0/16", none⟩] ∧
    ∃ rs, CreateNatGw.update_route_table "nat-1"
        [⟨some "10.0.0.0/16", none⟩] = .ok rs ∧
      rs.filter Route.isDefault = [⟨some "0.0.0.0/0", some "nat-1"⟩] :=
  ⟨(update_route_table_idempotent_delete "nat-1"
      [⟨some "10.0.0.0/16", none⟩]).1 (by decide),
   (update_route_table_idempotent_delete "nat-1"
      [⟨some "10.0.0.0/16", none⟩]).2.2⟩

/-- C2: `check_nat_gateway_status` returns normally only when the polled
state sequence reaches `available`; after each `pending` poll it sleeps
30 seconds and polls again; and on the first state outside
pending/available it raises immediately — the trace it produced holds
exactly `k` sleeps for `k` preceding pending polls (none after the bad
poll) and no poll beyond the bad one. -/
theorem check_nat_gateway_status_states (states : Nat → String)
    (k fuel : Nat) (hfuel : k < fuel)
    (hpend : ∀ j, j < k → states j = "pending") :
    (states k = "available" →
      CreateNatGw.check_nat_gateway_status states 0 fuel =
        (pollTrace k, .available)) ∧
    (states k ≠ "available" → states k ≠ "pending" →
      CreateNatGw.check_nat_gateway_status states 0 fuel =
        (pollTrace k, .unexpected (states k))) ∧
    ((CreateNatGw.check_nat_gateway_status states 0 fuel).2 = .available →
      ∃ m, states m = "available") ∧
    (pollTrace k).count Event.sleep30 = k ∧
    (pollTrace k).count Event.describeNatGateways = k + 1 := by
  have hp0 : ∀ j, j < k → states (0 + j) = "pending" := by
    intro j hj; simpa using hpend j hj
  refine ⟨fun h => ?_, fun h1 h2 => ?_,
    check_available_reaches states fuel 0,
    pollTrace_count_sleep k, pollTrace_count_describe k⟩
  · have hne : states (0 + k) ≠ "pending" := by
      rw [Nat.zero_add, h]; decide
    have := check_run states k 0 fuel hfuel hp0 hne
    simpa [h] using this
  · have := check_run states k 0 fuel hfuel hp0 (by simpa using h2)
    simpa [h1] using this

/-- C2 witness: one pending poll then the state `failed`: the loop raises
after two polls and exactly one executed sleep. -/
theorem check_nat_gateway_status_states_witness :
    CreateNatGw.check_nat_gateway_status
        (fun j => if j = 0 then "pending" else "failed") 0 5 =
      (pollTrace 1, .unexpected "failed") ∧
    (pollTrace 1).count Event.sleep30 = 1 ∧
    (pollTrace 1).count Event.describeNatGateways = 2 := by
  have h := check_nat_gateway_status_states
    (fun j => if j = 0 then "pending" else "failed") 1 5 (by decide)
    (fun j hj => by
      cases j with
      | zero => rfl
      | succ n => exact absurd hj (by omega))
  exact ⟨h.2.1 (by decide) (by decide), h.2.2.2⟩

/-- C5: with exactly one VPC whose `Name` tag value contains
`workerenv-<workspaceId>`, both copies of `_find_vpc_id_by_name` return
that VPC's id; with zero or two-or-more matching VPCs both fail with the
exactly-one-match `ValueError` (the behaviour the spec calls
`LookupError`).  Each VPC is assumed to carry at most one matching `Name`
tag, as EC2 forbids duplicate tag keys on a resource. -/
theorem find_vpc_id_by_name_exactly_one (vpcs : List Vpc) (wid : String)
    (huniq : ∀ v ∈ vpcs,
      (v.tags.filter (Tag.matchesWorkspace wid)).length ≤ 1) :
    (∀ v, vpcs.filter (fun v => v.tags.any (Tag.matchesWorkspace wid))
        = [v] →
      CreateNatGw.find_vpc_id_by_name vpcs wid = .ok v.vpcId ∧
      DeleteNatGw.find_vpc_id_by_name vpcs wid = .ok v.vpcId) ∧
    ((vpcs.filter fun v => v.tags.any (Tag.matchesWorkspace wid)).length
        ≠ 1 →
      (∃ m, CreateNatGw.find_vpc_id_by_name vpcs wid =
        .error (.valueError m)) ∧
      (∃ m, DeleteNatGw.find_vpc_id_by_name vpcs wid =
        .error (.valueError m))) := by
  have hC := flatMap_tag_matched (fun v => v) Vpc.tags
    (Tag.matchesWorkspace wid) vpcs huniq
  have hD := flatMap_tag_matched Vpc.vpcId Vpc.tags
    (Tag.matchesWorkspace wid) vpcs huniq
  constructor
  · intro v hv
    rw [hv] at hC hD
    constructor
    · unfold CreateNatGw.find_vpc_id_by_name
      rw [hC]; rfl
    · unfold DeleteNatGw.find_vpc_id_by_name
      rw [hD]; rfl
  · intro hlen
    cases hfil : vpcs.filter (fun v => v.tags.any (Tag.matchesWorkspace wid)) with
    | nil =>
      rw [hfil] at hC hD
      constructor
      · exact ⟨_, by unfold CreateNatGw.find_vpc_id_by_name; rw [hC]; rfl⟩
      · exact ⟨_, by unfold DeleteNatGw.find_vpc_id_by_name; rw [hD]; rfl⟩
    | cons a l =>
      cases l with
      | nil => rw [hfil] at hlen; simp at hlen
      | cons b l2 =>
        rw [hfil] at hC hD
        constructor
        · exact ⟨_, by unfold CreateNatGw.find_vpc_id_by_name; rw [hC]; rfl⟩
        · exact ⟨_, by unfold DeleteNatGw.find_vpc_id_by_name; rw [hD]; rfl⟩

/-- C5 witness: one matching VPC among two, and the zero-match case. -/
theorem find_vpc_id_by_name_exactly_one_witness :
    (CreateNatGw.find_vpc_id_by_name
        [⟨"vpc-1", [⟨"Name", "aa-workerenv-123-bb"⟩]⟩,
         ⟨"vpc-2", [⟨"Name", "other"⟩]⟩] "123" = .ok "vpc-1" ∧
      DeleteNatGw.find_vpc_id_by_name
        [⟨"vpc-1", [⟨"Name", "aa-workerenv-123-bb"⟩]⟩,
         ⟨"vpc-2", [⟨"Name", "other"⟩]⟩] "123" = .ok "vpc-1") ∧
    ((∃ m, CreateNatGw.find_vpc_id_by_name
        [⟨"vpc-2", [⟨"Name", "other"⟩]⟩] "123" =
          .error (.valueError m)) ∧
      (∃ m, DeleteNatGw.find_vpc_id_by_name
        [⟨"vpc-2", [⟨"Name", "other"⟩]⟩] "123" =
          .error (.valueError m))) :=
  ⟨(find_vpc_id_by_name_exactly_one
      [⟨"vpc-1", [⟨"Name", "aa-workerenv-123-bb"⟩]⟩,
       ⟨"vpc-2", [⟨"Name", "other"⟩]⟩] "123"
      (by decide)).1 ⟨"vpc-1", [⟨"Name", "aa-workerenv-123-bb"⟩]⟩
      (by decide),
   (find_vpc_id_by_name_exactly_one
      [⟨"vpc-2", [⟨"Name", "other"⟩]⟩] "123" (by decide)).2 (by decide)⟩

/-- C6: `_find_natgw_id_by_subnet_id` filters the gateways by the located
subnet id and state `available`; with exactly one match it returns that
gateway's id, otherwise it fails with the exactly-one-match `ValueError`
(the behaviour the spec calls `LookupError`). -/
theorem find_natgw_id_by_subnet_id_exactly_one (gws : List NatGateway)
    (subnet_id : String) :
    (∀ g, gws.filter
        (fun g => g.subnetId = subnet_id && g.state = "available") = [g] →
      DeleteNatGw.find_natgw_id_by_subnet_id gws subnet_id =
        .ok g.natGatewayId) ∧
    ((gws.filter
        (fun g => g.subnetId = subnet_id && g.state = "available")).length
        ≠ 1 →
      ∃ m, DeleteNatGw.find_natgw_id_by_subnet_id gws subnet_id =
        .error (.valueError m)) := by
  constructor
  · intro g hg
    unfold DeleteNatGw.find_natgw_id_by_subnet_id
    rw [hg]
  · intro hlen
    unfold DeleteNatGw.find_natgw_id_by_subnet_id
    cases hfil : gws.filter
        (fun g => g.subnetId = subnet_id && g.state = "available") with
    | nil => exact ⟨_, rfl⟩
    | cons a l =>
      cases l with
      | nil => rw [hfil] at hlen; simp at hlen
      | cons b l2 => exact ⟨_, rfl⟩

/-- C6 witness: one available gateway in the subnet, and the zero-match
case. -/
theorem find_natgw_id_by_subnet_id_exactly_one_witness :
    DeleteNatGw.find_natgw_id_by_subnet_id
      [⟨"nat-1", "subnet-1", "available", [⟨"eipalloc-1"⟩]⟩,
       ⟨"nat-2", "subnet-1", "deleted", []⟩] "subnet-1" = .ok "nat-1" ∧
    ∃ m, DeleteNatGw.find_natgw_id_by_subnet_id
      [⟨"nat-2", "subnet-1", "deleted", []⟩] "subnet-1" =
        .error (.valueError m) :=
  ⟨(find_natgw_id_by_subnet_id_exactly_one
      [⟨"nat-1", "subnet-1", "available", [⟨"eipalloc-1"⟩]⟩,
       ⟨"nat-2", "subnet-1", "deleted", []⟩] "subnet-1").1
      ⟨"nat-1", "subnet-1", "available", [⟨"eipalloc-1"⟩]⟩ (by decide),
   (find_natgw_id_by_subnet_id_exactly_one
      [⟨"nat-2", "subnet-1", "deleted", []⟩] "subnet-1").2 (by decide)⟩

/-- C7: `delete_route_to_natgw` checks for a 0.0.0.0/0 route, deletes it
when present and warns when absent, and swallows every error raised
during the check or the deletion — the describe failing, the `[0]` on an
empty response, or the delete failing — logging it instead of
propagating; the function's return type carries no error channel, so it
never raises. -/
theorem delete_route_to_natgw_never_raises (o : DeleteNatGw.RouteOracle) :
    (∀ e, o.describeRT = .error e →
      DeleteNatGw.delete_route_to_natgw o = (.errorLogged e, false)) ∧
    (o.describeRT = .ok [] →
      DeleteNatGw.delete_route_to_natgw o =
        (.errorLogged .indexError, false)) ∧
    (∀ routes rest, o.describeRT = .ok (routes :: rest) →
      (routes.any Route.isDefault = false →
        DeleteNatGw.delete_route_to_natgw o = (.warnNoRoute, false)) ∧
      (routes.any Route.isDefault = true →
        (o.deleteRoute = .ok () →
          DeleteNatGw.delete_route_to_natgw o = (.infoDeleted, true)) ∧
        (∀ e, o.deleteRoute = .error e →
          DeleteNatGw.delete_route_to_natgw o =
            (.errorLogged e, true)))) := by
  refine ⟨fun e he => ?_, fun he => ?_, fun routes rest hr => ⟨fun hno => ?_, fun hyes => ⟨fun hok => ?_, fun e he => ?_⟩⟩⟩
  · unfold DeleteNatGw.delete_route_to_natgw
    rw [he]
  · unfold DeleteNatGw.delete_route_to_natgw
    rw [he]
  · unfold DeleteNatGw.delete_route_to_natgw
    rw [hr]
    simp [hno]
  · unfold DeleteNatGw.delete_route_to_natgw
    rw [hr]
    simp [hyes, hok]
  · unfold DeleteNatGw.delete_route_to_natgw
    rw [hr]
    simp [hyes, he]

/-- C7 witness: a present default route with a successful delete, and a
failing describe whose error is logged, not propagated. -/
theorem delete_route_to_natgw_never_raises_witness :
    DeleteNatGw.delete_route_to_natgw
      ⟨.ok [[⟨some "0.0.0.0/0", some "nat-1"⟩]], .ok ()⟩ =
        (.infoDeleted, true) ∧
    DeleteNatGw.delete_route_to_natgw
      ⟨.error (.clientError "boom"), .ok ()⟩ =
        (.errorLogged (.clientError "boom"), false) :=
  ⟨((delete_route_to_natgw_never_raises
      ⟨.ok [[⟨some "0.0.0.0/0", some "nat-1"⟩]], .ok ()⟩).2.2
      [⟨some "0.0.0.0/0", some "nat-1"⟩] [] rfl).2 (by decide) |>.1 rfl,
   (delete_route_to_natgw_never_raises
      ⟨.error (.clientError "boom"), .ok ()⟩).1 (.clientError "boom") rfl⟩

/-- C8: both copies of `_find_default_route_table_by_vpcid` index `[0]`
of the filtered result unguarded: an empty result raises `IndexError`
(not the exactly-one-match `ValueError` the other lookups raise), and a
nonempty result returns the first table's id. -/
theorem find_default_route_table_unguarded (tables : List RouteTable)
    (vpc_id : String) :
    (tables.filter (fun t => t.vpcId = vpc_id && t.mainAssociation) = [] →
      CreateNatGw.find_default_route_table_by_vpcid tables vpc_id =
        .error .indexError ∧
      DeleteNatGw.find_default_route_table_by_vpcid tables vpc_id =
        .error .indexError ∧
      ∀ m, CreateNatGw.find_default_route_table_by_vpcid tables vpc_id ≠
        .error (.valueError m)) ∧
    (∀ t ts,
      tables.filter (fun t => t.vpcId = vpc_id && t.mainAssociation)
        = t :: ts →
      CreateNatGw.find_default_route_table_by_vpcid tables vpc_id =
        .ok t.routeTableId ∧
      DeleteNatGw.find_default_route_table_by_vpcid tables vpc_id =
        .ok t.routeTableId) := by
  constructor
  · intro hnil
    have hC : CreateNatGw.find_default_route_table_by_vpcid tables vpc_id
        = .error .indexError := by
      unfold CreateNatGw.find_default_route_table_by_vpcid
      rw [hnil]
    have hD : DeleteNatGw.find_default_route_table_by_vpcid tables vpc_id
        = .error .indexError := by
      unfold DeleteNatGw.find_default_route_table_by_vpcid
      rw [hnil]
    exact ⟨hC, hD, fun m hm => by rw [hC] at hm; exact absurd hm (by simp)⟩
  · intro t ts hcons
    constructor
    · unfold CreateNatGw.find_default_route_table_by_vpcid
      rw [hcons]
    · unfold DeleteNatGw.find_default_route_table_by_vpcid
      rw [hcons]

/-- C8 witness: no main route table for the VPC raises `IndexError`; a
present one is returned. -/
theorem find_default_route_table_unguarded_witness :
    (CreateNatGw.find_default_route_table_by_vpcid
        [⟨"rtb-9", "vpc-2", true, []⟩] "vpc-1" = .error .indexError ∧
      DeleteNatGw.find_default_route_table_by_vpcid
        [⟨"rtb-9", "vpc-2", true, []⟩] "vpc-1" = .error .indexError ∧
      ∀ m, CreateNatGw.find_default_route_table_by_vpcid
        [⟨"rtb-9", "vpc-2", true, []⟩] "vpc-1" ≠
          .error (.valueError m)) ∧
    (CreateNatGw.find_default_route_table_by_vpcid
        [⟨"rtb-1", "vpc-1", true, []⟩] "vpc-1" = .ok "rtb-1" ∧
      DeleteNatGw.find_default_route_table_by_vpcid
        [⟨"rtb-1", "vpc-1", true, []⟩] "vpc-1" = .ok "rtb-1") :=
  ⟨(find_default_route_table_unguarded
      [⟨"rtb-9", "vpc-2", true, []⟩] "vpc-1").1 (by decide),
   (find_default_route_table_unguarded
      [⟨"rtb-1", "vpc-1", true, []⟩] "vpc-1").2
      ⟨"rtb-1", "vpc-1", true, []⟩ [] (by decide)⟩

/-- C10: `_find_eip_association_id_by_natgw_id` reads
`NatGatewayAddresses[0]` of the unique matching gateway unguarded: an
empty address list raises `IndexError` rather than the exactly-one-match
`ValueError`; with at least one address it returns the first address's
allocation id. -/
theorem find_eip_association_unguarded (gws : List NatGateway)
    (natgw_id subnet_id : String) :
    (∀ g, gws.filter (fun g => g.natGatewayId = natgw_id) = [g] →
      (g.addresses = [] →
        DeleteNatGw.find_eip_association_id_by_natgw_id gws natgw_id
          subnet_id = .error .indexError) ∧
      (∀ a rest, g.addresses = a :: rest →
        DeleteNatGw.find_eip_association_id_by_natgw_id gws natgw_id
          subnet_id = .ok a.allocationId)) ∧
    ((gws.filter fun g => g.natGatewayId = natgw_id).length ≠ 1 →
      ∃ m, DeleteNatGw.find_eip_association_id_by_natgw_id gws natgw_id
        subnet_id = .error (.valueError m)) := by
  constructor
  · intro g hg
    constructor
    · intro hempty
      simp only [DeleteNatGw.find_eip_association_id_by_natgw_id, hg,
        hempty]
    · intro a rest ha
      simp only [DeleteNatGw.find_eip_association_id_by_natgw_id, hg, ha]
  · intro hlen
    unfold DeleteNatGw.find_eip_association_id_by_natgw_id
    cases hfil : gws.filter (fun g => g.natGatewayId = natgw_id) with
    | nil => exact ⟨_, rfl⟩
    | cons a l =>
      cases l with
      | nil => rw [hfil] at hlen; simp at hlen
      | cons b l2 => exact ⟨_, rfl⟩

/-- C10 witness: a gateway with no addresses raises `IndexError`; one
with an address returns its allocation id. -/
theorem find_eip_association_unguarded_witness :
    DeleteNatGw.find_eip_association_id_by_natgw_id
      [⟨"nat-1", "subnet-1", "available", []⟩] "nat-1" "subnet-1" =
        .error .indexError ∧
    DeleteNatGw.find_eip_association_id_by_natgw_id
      [⟨"nat-1", "subnet-1", "available", [⟨"eipalloc-1"⟩, ⟨"eipalloc-2"⟩]⟩]
      "nat-1" "subnet-1" = .ok "eipalloc-1" :=
  ⟨((find_eip_association_unguarded
      [⟨"nat-1", "subnet-1", "available", []⟩] "nat-1" "subnet-1").1
      ⟨"nat-1", "subnet-1", "available", []⟩ (by decide)).1 rfl,
   ((find_eip_association_unguarded
      [⟨"nat-1", "subnet-1", "available", [⟨"eipalloc-1"⟩, ⟨"eipalloc-2"⟩]⟩]
      "nat-1" "subnet-1").1
      ⟨"nat-1", "subnet-1", "available", [⟨"eipalloc-1"⟩, ⟨"eipalloc-2"⟩]⟩
      (by decide)).2 ⟨"eipalloc-1"⟩ [⟨"eipalloc-2"⟩] rfl⟩

/-- C9: both constructors perform only the resource lookups — every call
they issue is a read-only describe call, never a mutating one (allocate,
create, delete-route, create-route, delete-gateway, release); hence a
failed lookup aborts construction before any mutating call and leaves
the cloud state untouched. -/
theorem constructors_issue_no_mutating_calls (vpcs : List Vpc)
    (tables : List RouteTable) (subnets : List Subnet)
    (gws : List NatGateway) (wid : String) :
    (∀ e ∈ (CreateNatGw.Creator.construct vpcs tables subnets wid).2,
      e.isMutating = false) ∧
    (∀ e ∈ (DeleteNatGw.Deleter.construct vpcs tables subnets gws wid).2,
      e.isMutating = false) := by
  constructor
  · intro e he
    cases h1 : CreateNatGw.find_vpc_id_by_name vpcs wid with
    | error e1 =>
      simp only [CreateNatGw.Creator.construct, h1,
        List.mem_singleton] at he
      subst he; rfl
    | ok vpcId =>
      cases h2 : CreateNatGw.find_default_route_table_by_vpcid tables
          vpcId with
      | error e2 =>
        simp only [CreateNatGw.Creator.construct, h1, h2, List.mem_cons,
          List.not_mem_nil, or_false] at he
        rcases he with rfl | rfl <;> rfl
      | ok rtb =>
        cases h3 : CreateNatGw.find_subnet_id_for_natgw_by_vpc_id subnets
            vpcId with
        | error e3 =>
          simp only [CreateNatGw.Creator.construct, h1, h2, h3,
            List.mem_cons, List.not_mem_nil, or_false] at he
          rcases he with rfl | rfl | rfl <;> rfl
        | ok sub =>
          simp only [CreateNatGw.Creator.construct, h1, h2, h3,
            List.mem_cons, List.not_mem_nil, or_false] at he
          rcases he with rfl | rfl | rfl <;> rfl
  · intro e he
    cases h1 : DeleteNatGw.find_vpc_id_by_name vpcs wid with
    | error e1 =>
      simp only [DeleteNatGw.Deleter.construct, h1,
        List.mem_singleton] at he
      subst he; rfl
    | ok vpcId =>
      cases h2 : DeleteNatGw.find_default_route_table_by_vpcid tables
          vpcId with
      | error e2 =>
        simp only [DeleteNatGw.Deleter.construct, h1, h2, List.mem_cons,
          List.not_mem_nil, or_false] at he
        rcases he with rfl | rfl <;> rfl
      | ok rtb =>
        cases h3 : DeleteNatGw.find_subnet_id_for_natgw_by_vpc_id subnets
            vpcId with
        | error e3 =>
          simp only [DeleteNatGw.Deleter.construct, h1, h2, h3,
            List.mem_cons, List.not_mem_nil, or_false] at he
          rcases he with rfl | rfl | rfl <;> rfl
        | ok sub =>
          cases h4 : DeleteNatGw.find_natgw_id_by_subnet_id gws sub with
          | error e4 =>
            simp only [DeleteNatGw.Deleter.construct, h1, h2, h3, h4,
              List.mem_cons, List.not_mem_nil, or_false] at he
            rcases he with rfl | rfl | rfl | rfl <;> rfl
          | ok gw =>
            cases h5 : DeleteNatGw.find_eip_association_id_by_natgw_id
                gws gw sub with
            | error e5 =>
              simp only [DeleteNatGw.Deleter.construct, h1, h2, h3, h4,
                h5, List.mem_cons, List.not_mem_nil, or_false] at he
              rcases he with rfl | rfl | rfl | rfl | rfl <;> rfl
            | ok eip =>
              simp only [DeleteNatGw.Deleter.construct, h1, h2, h3, h4,
                h5, List.mem_cons, List.not_mem_nil, or_false] at he
              rcases he with rfl | rfl | rfl | rfl | rfl <;> rfl

/-- C9 witness: the theorem at empty resource lists, on the first
describe call of each constructor. -/
theorem constructors_issue_no_mutating_calls_witness :
    Event.isMutating .describeVpcs = false ∧
    Event.isMutating .describeVpcs = false :=
  ⟨(constructors_issue_no_mutating_calls [] [] [] [] "123").1
      .describeVpcs (by decide),
   (constructors_issue_no_mutating_calls [] [] [] [] "123").2
      .describeVpcs (by decide)⟩

/-- C3: `CreateNATGateway.run` executes `create_eip`, `create_natgw`,
`check_nat_gateway_status`, `update_route_table` in exactly that order
(visible in the trace) and returns the id of the newly created NAT
gateway; and whichever step raises — a non-200 allocate response, a
non-200 create-gateway response, an unexpected polled state, a
non-benign delete-route error, or a non-200 create-route response — no
later step is executed and no earlier step is rolled back: the elastic
IP and the gateway created by the completed steps remain in the cloud
state. -/
theorem creator_run_order_and_no_rollback (c : CreateNatGw.Creator)
    (p : CreateNatGw.Provider) (states : Nat → String) (k fuel : Nat)
    (w : World) (hfuel : k < fuel)
    (hpend : ∀ j, j < k → states j = "pending") :
    (p.allocateStatus = 200 → p.createNatGwStatus = 200 →
      p.deleteRouteErr = none → p.createRouteStatus = 200 →
      states k = "available" →
      CreateNatGw.Creator.run c p states fuel w =
        .ok ("nat-" ++ toString (w.nextId + 1))
          { eips := w.eips ++ ["eipalloc-" ++ toString w.nextId],
            natGateways := w.natGateways ++
              [⟨"nat-" ++ toString (w.nextId + 1), c.subnet_id_for_natgw,
                "pending", [⟨"eipalloc-" ++ toString w.nextId⟩]⟩],
            routes := (w.routes.filter fun r => !r.isDefault) ++
              [⟨some "0.0.0.0/0",
                some ("nat-" ++ toString (w.nextId + 1))⟩],
            nextId := w.nextId + 2 }
          (.allocateAddress ("eipalloc-" ++ toString w.nextId) ::
            .createNatGatewayCall ("eipalloc-" ++ toString w.nextId)
              c.subnet_id_for_natgw ("nat-" ++ toString (w.nextId + 1)) ::
            (pollTrace k ++
              [.deleteRouteCall c.route_table,
               .createRouteCall c.route_table
                 ("nat-" ++ toString (w.nextId + 1))]))) ∧
    (p.allocateStatus ≠ 200 →
      CreateNatGw.Creator.run c p states fuel w =
        .err (.valueError "Failed to create Elastic IP") w
          [.allocateAddress ("eipalloc-" ++ toString w.nextId)]) ∧
    (p.allocateStatus = 200 → p.createNatGwStatus ≠ 200 →
      CreateNatGw.Creator.run c p states fuel w =
        .err (.valueError "Failed to create NAT Gateway")
          { w with
            eips := w.eips ++ ["eipalloc-" ++ toString w.nextId],
            nextId := w.nextId + 1 }
          [.allocateAddress ("eipalloc-" ++ toString w.nextId),
           .createNatGatewayCall ("eipalloc-" ++ toString w.nextId)
             c.subnet_id_for_natgw
             ("nat-" ++ toString (w.nextId + 1))]) ∧
    (p.allocateStatus = 200 → p.createNatGwStatus = 200 →
      states k ≠ "available" → states k ≠ "pending" →
      CreateNatGw.Creator.run c p states fuel w =
        .err (.valueError ("NAT Gateway " ++
            ("nat-" ++ toString (w.nextId + 1)) ++
            " is in an unexpected state: " ++ states k))
          { eips := w.eips ++ ["eipalloc-" ++ toString w.nextId],
            natGateways := w.natGateways ++
              [⟨"nat-" ++ toString (w.nextId + 1), c.subnet_id_for_natgw,
                "pending", [⟨"eipalloc-" ++ toString w.nextId⟩]⟩],
            routes := w.routes,
            nextId := w.nextId + 2 }
          (.allocateAddress ("eipalloc-" ++ toString w.nextId) ::
            .createNatGatewayCall ("eipalloc-" ++ toString w.nextId)
              c.subnet_id_for_natgw ("nat-" ++ toString (w.nextId + 1)) ::
            pollTrace k) ∧
      ∀ e ∈ (.allocateAddress ("eipalloc-" ++ toString w.nextId) ::
          .createNatGatewayCall ("eipalloc-" ++ toString w.nextId)
            c.subnet_id_for_natgw ("nat-" ++ toString (w.nextId + 1)) ::
          pollTrace k : List Event),
        e.isMutating = true →
          e = .allocateAddress ("eipalloc-" ++ toString w.nextId) ∨
          e = .createNatGatewayCall ("eipalloc-" ++ toString w.nextId)
            c.subnet_id_for_natgw ("nat-" ++ toString (w.nextId + 1))) ∧
    (∀ msg, p.allocateStatus = 200 → p.createNatGwStatus = 200 →
      p.deleteRouteErr = some msg →
      strContains msg "InvalidRoute.NotFound" = false →
      states k = "available" →
      CreateNatGw.Creator.run c p states fuel w =
        .err (.clientError msg)
          { eips := w.eips ++ ["eipalloc-" ++ toString w.nextId],
            natGateways := w.natGateways ++
              [⟨"nat-" ++ toString (w.nextId + 1), c.subnet_id_for_natgw,
                "pending", [⟨"eipalloc-" ++ toString w.nextId⟩]⟩],
            routes := w.routes,
            nextId := w.nextId + 2 }
          (.allocateAddress ("eipalloc-" ++ toString w.nextId) ::
            .createNatGatewayCall ("eipalloc-" ++ toString w.nextId)
              c.subnet_id_for_natgw ("nat-" ++ toString (w.nextId + 1)) ::
            (pollTrace k ++ [.deleteRouteCall c.route_table]))) ∧
    (p.allocateStatus = 200 → p.createNatGwStatus = 200 →
      p.deleteRouteErr = none → p.createRouteStatus ≠ 200 →
      states k = "available" →
      CreateNatGw.Creator.run c p states fuel w =
        .err (.valueError "Failed to add route to route table")
          { eips := w.eips ++ ["eipalloc-" ++ toString w.nextId],
            natGateways := w.natGateways ++
              [⟨"nat-" ++ toString (w.nextId + 1), c.subnet_id_for_natgw,
                "pending", [⟨"eipalloc-" ++ toString w.nextId⟩]⟩],
            routes := if w.routes.any Route.isDefault
              then w.routes.filter fun r => !r.isDefault
              else w.routes,
            nextId := w.nextId + 2 }
          (.allocateAddress ("eipalloc-" ++ toString w.nextId) ::
            .createNatGatewayCall ("eipalloc-" ++ toString w.nextId)
              c.subnet_id_for_natgw ("nat-" ++ toString (w.nextId + 1)) ::
            (pollTrace k ++
              [.deleteRouteCall c.route_table,
               .createRouteCall c.route_table
                 ("nat-" ++ toString (w.nextId + 1))]))) := by
  have hp0 : ∀ j, j < k → states (0 + j) = "pending" :=
    fun j hj => by simpa using hpend j hj
  refine ⟨fun hA hN hD hC h => ?_, fun hA => ?_, fun hA hN => ?_,
    fun hA hN h1 h2 => ⟨?_, ?_⟩, fun msg hA hN hD hmsg h => ?_,
    fun hA hN hD hC h => ?_⟩
  · have hne : states (0 + k) ≠ "pending" := by
      rw [Nat.zero_add, h]; decide
    have hchk := check_run states k 0 fuel hfuel hp0 hne
    rw [Nat.zero_add, h, if_pos rfl] at hchk
    simp only [CreateNatGw.Creator.run, create_eip_ok _ _ hA,
      create_natgw_ok _ _ _ _ hN, hchk,
      update_route_table_step_benign _ _ _ _ hD hC]
    rfl
  · simp only [CreateNatGw.Creator.run, create_eip_fail _ _ hA]
  · simp only [CreateNatGw.Creator.run, create_eip_ok _ _ hA,
      create_natgw_fail _ _ _ _ hN]
    rfl
  · have hne : states (0 + k) ≠ "pending" := by rw [Nat.zero_add]; exact h2
    have hchk := check_run states k 0 fuel hfuel hp0 hne
    rw [Nat.zero_add, if_neg h1] at hchk
    simp only [CreateNatGw.Creator.run, create_eip_ok _ _ hA,
      create_natgw_ok _ _ _ _ hN, hchk]
    rfl
  · intro e he hmut
    rcases List.mem_cons.mp he with rfl | he
    · exact Or.inl rfl
    rcases List.mem_cons.mp he with rfl | he
    · exact Or.inr rfl
    rcases pollTrace_mem he with rfl | rfl <;> exact absurd hmut (by decide)
  · have hne : states (0 + k) ≠ "pending" := by
      rw [Nat.zero_add, h]; decide
    have hchk := check_run states k 0 fuel hfuel hp0 hne
    rw [Nat.zero_add, h, if_pos rfl] at hchk
    simp only [CreateNatGw.Creator.run, create_eip_ok _ _ hA,
      create_natgw_ok _ _ _ _ hN, hchk,
      update_route_table_step_delete_fail _ _ _ _ _ hD hmsg]
    rfl
  · have hne : states (0 + k) ≠ "pending" := by
      rw [Nat.zero_add, h]; decide
    have hchk := check_run states k 0 fuel hfuel hp0 hne
    rw [Nat.zero_add, h, if_pos rfl] at hchk
    simp only [CreateNatGw.Creator.run, create_eip_ok _ _ hA,
      create_natgw_ok _ _ _ _ hN, hchk,
      update_route_table_step_create_fail _ _ _ _ hD hC]
    rfl

/-- C3 witness: the empty world and a gateway available on the first
poll.  A success-answering provider yields the full ordered trace and
the new gateway id; a failing allocate aborts with the world unchanged;
a failing create-gateway aborts keeping the allocated elastic IP; a
`failed` polled state aborts keeping the elastic IP and the gateway; a
non-benign delete-route error and a non-200 create-route response abort
the rewrite step, again keeping both resources. -/
theorem creator_run_order_and_no_rollback_witness :
    CreateNatGw.Creator.run ⟨"vpc-1", "rtb-1", "subnet-1"⟩
        ⟨200, 200, none, 200⟩ (fun _ => "available") 1 ⟨[], [], [], 0⟩ =
      .ok ("nat-" ++ toString (0 + 1))
        { eips := [] ++ ["eipalloc-" ++ toString 0],
          natGateways := [] ++
            [⟨"nat-" ++ toString (0 + 1), "subnet-1", "pending",
              [⟨"eipalloc-" ++ toString 0⟩]⟩],
          routes := (List.filter (fun r => !r.isDefault) []) ++
            [⟨some "0.0.0.0/0", some ("nat-" ++ toString (0 + 1))⟩],
          nextId := 0 + 2 }
        (.allocateAddress ("eipalloc-" ++ toString 0) ::
          .createNatGatewayCall ("eipalloc-" ++ toString 0) "subnet-1"
            ("nat-" ++ toString (0 + 1)) ::
          (pollTrace 0 ++
            [.deleteRouteCall "rtb-1",
             .createRouteCall "rtb-1" ("nat-" ++ toString (0 + 1))])) ∧
    CreateNatGw.Creator.run ⟨"vpc-1", "rtb-1", "subnet-1"⟩
        ⟨500, 200, none, 200⟩ (fun _ => "available") 1 ⟨[], [], [], 0⟩ =
      .err (.valueError "Failed to create Elastic IP") ⟨[], [], [], 0⟩
        [.allocateAddress ("eipalloc-" ++ toString 0)] ∧
    CreateNatGw.Creator.run ⟨"vpc-1", "rtb-1", "subnet-1"⟩
        ⟨200, 500, none, 200⟩ (fun _ => "available") 1 ⟨[], [], [], 0⟩ =
      .err (.valueError "Failed to create NAT Gateway")
        { eips := [] ++ ["eipalloc-" ++ toString 0], natGateways := [],
          routes := [], nextId := 0 + 1 }
        [.allocateAddress ("eipalloc-" ++ toString 0),
         .createNatGatewayCall ("eipalloc-" ++ toString 0) "subnet-1"
           ("nat-" ++ toString (0 + 1))] ∧
    CreateNatGw.Creator.run ⟨"vpc-1", "rtb-1", "subnet-1"⟩
        ⟨200, 200, none, 200⟩ (fun _ => "failed") 1 ⟨[], [], [], 0⟩ =
      .err (.valueError ("NAT Gateway " ++ ("nat-" ++ toString (0 + 1)) ++
          " is in an unexpected state: " ++ "failed"))
        { eips := [] ++ ["eipalloc-" ++ toString 0],
          natGateways := [] ++
            [⟨"nat-" ++ toString (0 + 1), "subnet-1", "pending",
              [⟨"eipalloc-" ++ toString 0⟩]⟩],
          routes := [], nextId := 0 + 2 }
        (.allocateAddress ("eipalloc-" ++ toString 0) ::
          .createNatGatewayCall ("eipalloc-" ++ toString 0) "subnet-1"
            ("nat-" ++ toString (0 + 1)) :: pollTrace 0) ∧
    CreateNatGw.Creator.run ⟨"vpc-1", "rtb-1", "subnet-1"⟩
        ⟨200, 200, some "AccessDenied", 200⟩ (fun _ => "available") 1
        ⟨[], [], [], 0⟩ =
      .err (.clientError "AccessDenied")
        { eips := [] ++ ["eipalloc-" ++ toString 0],
          natGateways := [] ++
            [⟨"nat-" ++ toString (0 + 1), "subnet-1", "pending",
              [⟨"eipalloc-" ++ toString 0⟩]⟩],
          routes := [], nextId := 0 + 2 }
        (.allocateAddress ("eipalloc-" ++ toString 0) ::
          .createNatGatewayCall ("eipalloc-" ++ toString 0) "subnet-1"
            ("nat-" ++ toString (0 + 1)) ::
          (pollTrace 0 ++ [.deleteRouteCall "rtb-1"])) ∧
    CreateNatGw.Creator.run ⟨"vpc-1", "rtb-1", "subnet-1"⟩
        ⟨200, 200, none, 500⟩ (fun _ => "available") 1 ⟨[], [], [], 0⟩ =
      .err (.valueError "Failed to add route to route table")
        { eips := [] ++ ["eipalloc-" ++ toString 0],
          natGateways := [] ++
            [⟨"nat-" ++ toString (0 + 1), "subnet-1", "pending",
              [⟨"eipalloc-" ++ toString 0⟩]⟩],
          routes := if ([] : List Route).any Route.isDefault
            then ([] : List Route).filter fun r => !r.isDefault
            else ([] : List Route),
          nextId := 0 + 2 }
        (.allocateAddress ("eipalloc-" ++ toString 0) ::
          .createNatGatewayCall ("eipalloc-" ++ toString 0) "subnet-1"
            ("nat-" ++ toString (0 + 1)) ::
          (pollTrace 0 ++
            [.deleteRouteCall "rtb-1",
             .createRouteCall "rtb-1" ("nat-" ++ toString (0 + 1))])) :=
  ⟨(creator_run_order_and_no_rollback ⟨"vpc-1", "rtb-1", "subnet-1"⟩
      ⟨200, 200, none, 200⟩ (fun _ => "available") 0 1 ⟨[], [], [], 0⟩
      (by decide) (fun j hj => absurd hj (Nat.not_lt_zero j))).1
      rfl rfl rfl rfl rfl,
   (creator_run_order_and_no_rollback ⟨"vpc-1", "rtb-1", "subnet-1"⟩
      ⟨500, 200, none, 200⟩ (fun _ => "available") 0 1 ⟨[], [], [], 0⟩
      (by decide) (fun j hj => absurd hj (Nat.not_lt_zero j))).2.1
      (by decide),
   (creator_run_order_and_no_rollback ⟨"vpc-1", "rtb-1", "subnet-1"⟩
      ⟨200, 500, none, 200⟩ (fun _ => "available") 0 1 ⟨[], [], [], 0⟩
      (by decide) (fun j hj => absurd hj (Nat.not_lt_zero j))).2.2.1
      rfl (by decide),
   (creator_run_order_and_no_rollback ⟨"vpc-1", "rtb-1", "subnet-1"⟩
      ⟨200, 200, none, 200⟩ (fun _ => "failed") 0 1 ⟨[], [], [], 0⟩
      (by decide) (fun j hj => absurd hj (Nat.not_lt_zero j))).2.2.2.1
      rfl rfl (by decide) (by decide) |>.1,
   (creator_run_order_and_no_rollback ⟨"vpc-1", "rtb-1", "subnet-1"⟩
      ⟨200, 200, some "AccessDenied", 200⟩ (fun _ => "available") 0 1
      ⟨[], [], [], 0⟩ (by decide)
      (fun j hj => absurd hj (Nat.not_lt_zero j))).2.2.2.2.1
      "AccessDenied" rfl rfl rfl (by decide) rfl,
   (creator_run_order_and_no_rollback ⟨"vpc-1", "rtb-1", "subnet-1"⟩
      ⟨200, 200, none, 500⟩ (fun _ => "available") 0 1 ⟨[], [], [], 0⟩
      (by decide) (fun j hj => absurd hj (Nat.not_lt_zero j))).2.2.2.2.2
      rfl rfl rfl (by decide) rfl⟩

/-- C4: with the Deleter constructed over a world holding exactly one
available NAT gateway in the tagged subnet (with an associated
allocation), `run()` issues the gateway delete call, then the
deletion-confirmed wait, and only after that the elastic-IP release — in
that order — and every call before the gateway delete is a route-table
operation (the diagnostic listing and the route deletion). -/
theorem deleter_run_order (vpcs : List Vpc) (tables : List RouteTable)
    (subnets : List Subnet) (gws : List NatGateway) (wid : String)
    (d : DeleteNatGw.Deleter) (tr0 : List Event) (w : World)
    (hmk : DeleteNatGw.Deleter.construct vpcs tables subnets gws wid =
      (.ok d, tr0)) :
    DeleteNatGw.find_natgw_id_by_subnet_id gws d.subnet_id_for_natgw =
      .ok d.natgw_id ∧
    DeleteNatGw.find_eip_association_id_by_natgw_id gws d.natgw_id
      d.subnet_id_for_natgw = .ok d.eip_association_id ∧
    ∃ pre w2,
      DeleteNatGw.Deleter.run d w =
        (w2, pre ++
          [.deleteNatGatewayCall d.natgw_id, .waiterWait d.natgw_id,
           .releaseAddress d.eip_association_id]) ∧
      ∀ e ∈ pre, e.isRouteTableOp = true := by
  have hrun : ∃ pre w2,
      DeleteNatGw.Deleter.run d w =
        (w2, pre ++
          [.deleteNatGatewayCall d.natgw_id, .waiterWait d.natgw_id,
           .releaseAddress d.eip_association_id]) ∧
      ∀ e ∈ pre, e.isRouteTableOp = true := by
    by_cases hdef : w.routes.any Route.isDefault
    · refine ⟨[.describeRouteTables, .describeRouteTables,
        .deleteRouteCall d.route_table],
        { eips := w.eips.filter fun a => !(a = d.eip_association_id),
          natGateways :=
            w.natGateways.filter fun g => !(g.natGatewayId = d.natgw_id),
          routes := w.routes.filter fun r => !r.isDefault,
          nextId := w.nextId }, ?_, ?_⟩
      · simp only [DeleteNatGw.Deleter.run,
          DeleteNatGw.check_routes_in_route_table,
          DeleteNatGw.delete_route_to_natgw_w, hdef, if_pos,
          DeleteNatGw.delete_natgw, DeleteNatGw.release_eip]
        rfl
      · intro e he
        rcases List.mem_cons.mp he with rfl | he
        · rfl
        rcases List.mem_cons.mp he with rfl | he
        · rfl
        rcases List.mem_cons.mp he with rfl | he
        · rfl
        · exact absurd he (List.not_mem_nil e)
    · refine ⟨[.describeRouteTables, .describeRouteTables],
        { eips := w.eips.filter fun a => !(a = d.eip_association_id),
          natGateways :=
            w.natGateways.filter fun g => !(g.natGatewayId = d.natgw_id),
          routes := w.routes,
          nextId := w.nextId }, ?_, ?_⟩
      · simp only [Bool.not_eq_true] at hdef
        simp only [DeleteNatGw.Deleter.run,
          DeleteNatGw.check_routes_in_route_table,
          DeleteNatGw.delete_route_to_natgw_w, hdef, Bool.false_eq_true,
          if_false, DeleteNatGw.delete_natgw, DeleteNatGw.release_eip]
        rfl
      · intro e he
        rcases List.mem_cons.mp he with rfl | he
        · rfl
        rcases List.mem_cons.mp he with rfl | he
        · rfl
        · exact absurd he (List.not_mem_nil e)
  cases h1 : DeleteNatGw.find_vpc_id_by_name vpcs wid with
  | error e1 => simp only [DeleteNatGw.Deleter.construct, h1,
      Prod.mk.injEq] at hmk; exact absurd hmk.1 (by simp)
  | ok vpcId =>
  cases h2 : DeleteNatGw.find_default_route_table_by_vpcid tables
      vpcId with
  | error e2 => simp only [DeleteNatGw.Deleter.construct, h1, h2,
      Prod.mk.injEq] at hmk; exact absurd hmk.1 (by simp)
  | ok rtb =>
  cases h3 : DeleteNatGw.find_subnet_id_for_natgw_by_vpc_id subnets
      vpcId with
  | error e3 => simp only [DeleteNatGw.Deleter.construct, h1, h2, h3,
      Prod.mk.injEq] at hmk; exact absurd hmk.1 (by simp)
  | ok sub =>
  cases h4 : DeleteNatGw.find_natgw_id_by_subnet_id gws sub with
  | error e4 => simp only [DeleteNatGw.Deleter.construct, h1, h2, h3, h4,
      Prod.mk.injEq] at hmk; exact absurd hmk.1 (by simp)
  | ok gw =>
  cases h5 : DeleteNatGw.find_eip_association_id_by_natgw_id gws gw
      sub with
  | error e5 => simp only [DeleteNatGw.Deleter.construct, h1, h2, h3, h4,
      h5, Prod.mk.injEq] at hmk; exact absurd hmk.1 (by simp)
  | ok eip =>
    simp only [DeleteNatGw.Deleter.construct, h1, h2, h3, h4, h5,
      Prod.mk.injEq, Except.ok.injEq] at hmk
    obtain ⟨hd, -⟩ := hmk
    subst hd
    exact ⟨h4, h5, hrun⟩

/-- C4 witness: one available gateway `nat-1` with allocation
`eipalloc-1` in the tagged subnet; the delete call, the wait and the
release appear in order after the route-table operations. -/
theorem deleter_run_order_witness :
    DeleteNatGw.find_natgw_id_by_subnet_id
      [⟨"nat-1", "subnet-1", "available", [⟨"eipalloc-1"⟩]⟩] "subnet-1" =
        .ok "nat-1" ∧
    DeleteNatGw.find_eip_association_id_by_natgw_id
      [⟨"nat-1", "subnet-1", "available", [⟨"eipalloc-1"⟩]⟩] "nat-1"
      "subnet-1" = .ok "eipalloc-1" ∧
    ∃ pre w2,
      DeleteNatGw.Deleter.run
        ⟨"vpc-1", "rtb-1", "subnet-1", "nat-1", "eipalloc-1"⟩
        ⟨["eipalloc-1"],
         [⟨"nat-1", "subnet-1", "available", [⟨"eipalloc-1"⟩]⟩],
         [⟨some "0.0.0.0/0", some "nat-1"⟩], 5⟩ =
        (w2, pre ++
          [.deleteNatGatewayCall "nat-1", .waiterWait "nat-1",
           .releaseAddress "eipalloc-1"]) ∧
      ∀ e ∈ pre, e.isRouteTableOp = true :=
  deleter_run_order [⟨"vpc-1", [⟨"Name", "workerenv-123"⟩]⟩]
    [⟨"rtb-1", "vpc-1", true, [⟨some "0.0.0.0/0", some "nat-1"⟩]⟩]
    [⟨"subnet-1", "vpc-1", [⟨"Name", "nat-gateway-subnet"⟩]⟩]
    [⟨"nat-1", "subnet-1", "available", [⟨"eipalloc-1"⟩]⟩] "123"
    ⟨"vpc-1", "rtb-1", "subnet-1", "nat-1", "eipalloc-1"⟩
    [.describeVpcs, .describeRouteTables, .describeSubnets,
     .describeNatGateways, .describeNatGateways]
    ⟨["eipalloc-1"],
     [⟨"nat-1", "subnet-1", "available", [⟨"eipalloc-1"⟩]⟩],
     [⟨some "0.0.0.0/0", some "nat-1"⟩], 5⟩
    (by rfl)
